import Mathlib

/-!
# ODrive motor: safety state, error mask and protocol surface

A shallow embedding of `Firmware/MotorControl/motor.hpp`.

* The nested types of `class Motor` (`Error_t`, `MotorType_t`, `Iph_ABC_t`,
  `CurrentControl_t`, `Config_t`, `TimingLog_t`, `UpdateMode_t`) become Lean
  types of the same name; a C++ default member initialiser becomes the default
  value of the structure field.
* `class Motor` becomes the record `Motor` of its data members.  The three
  members without an initialiser (`period_`, `timer_sync_delay_`,
  `target_period_`) are arguments of `Motor.init`.
* The address of a scalar data member (`&config_.pole_pairs`,
  `&timing_log_[TIMING_LOG_DC_CAL]`, ...) becomes a value of `Motor.Addr`, with
  `Motor.load` and `Motor.store` for reading and assigning through it.
* `make_protocol_definitions` is transcribed entry by entry.
* The member functions the header leaves pure virtual have no body in this
  file of the repository.  `disarm`, `set_error`, `arm` and `arm_foc` are
  modelled from the specification (sections 3, 4.4, 8); `update_current_controller_gains`
  and `update_switching_frequency` are arguments (`Impl`).

Integers are `Nat`/`Int` (the header does no arithmetic on them); a `float` is
kept as the literal the header writes, no floating-point operation is modelled.
-/

namespace ODrive

/-! ## Scalar types -/

/-- A `float` constant as the header writes it: a decimal literal
`mantissa / 10 ^ decimals`, plus or minus `INFINITY`, or `NAN`. -/
inductive float where
  | lit (mantissa : Int) (decimals : Nat)
  | inf (negative : Bool)
  | nan
deriving DecidableEq

/-- The C macro `INFINITY`. -/
def INFINITY : float := float.inf false

/-- The C macro `NAN`. -/
def NAN : float := float.nan

/-- Unary minus on the constants the header negates (`-INFINITY`). -/
def float.neg : float → float
  | float.lit m d => float.lit (-m) d
  | float.inf n => float.inf (!n)
  | float.nan => float.nan

/-- A data pointer (`void*`, `Axis*`): `none` is `nullptr`. -/
abbrev ptr := Option Nat

/-- The type `Motor::control_law_t`, a pointer to a function
`bool(Motor&, void*, float, float[3])`: `none` is `nullptr`, `some a` the
address of a function. -/
abbrev control_law_t := Option Nat

/-! ## Nested types of `class Motor` -/

/-- The enumerators of `Motor::Error_t`. -/
inductive Error_t where
  | ERROR_NONE
  | ERROR_PHASE_RESISTANCE_OUT_OF_RANGE
  | ERROR_PHASE_INDUCTANCE_OUT_OF_RANGE
  | ERROR_ADC_FAILED
  | ERROR_DRV_FAULT
  | ERROR_CONTROL_DEADLINE_MISSED
  | ERROR_NOT_IMPLEMENTED_MOTOR_TYPE
  | ERROR_BRAKE_CURRENT_OUT_OF_RANGE
  | ERROR_MODULATION_MAGNITUDE
  | ERROR_BRAKE_DEADTIME_VIOLATION
  | ERROR_UNEXPECTED_TIMER_CALLBACK
  | ERROR_CURRENT_SENSE_SATURATION
  | ERROR_INVERTER_OVER_TEMP
  | ERROR_CURRENT_SENSOR
  | ERROR_BRAKE_RESISTOR_DISARMED
  | ERROR_NOT_CALIBRATED
  | ERROR_CURRENT_SENSOR_DEAD
  | ERROR_V_BUS_SENSOR_DEAD
  | ERROR_TOO_NOISY
  | ERROR_I_BUS_OUT_OF_RANGE
  | ERROR_TIMER_UPDATE_MISSED
  | ERROR_CONTROLLER_FAILED
  | ERROR_DC_BUS_UNDER_VOLTAGE
  | ERROR_DC_BUS_OVER_VOLTAGE
  | ERROR_FAILED_TO_ARM
  | ERROR_FOC_TIMEOUT
  | ERROR_LEAK_CURRENT_TOO_HIGH
  | ERROR_MOTOR_OVER_TEMP
  | ERROR_INVALID_FREQ_SETTING
  | ERROR_FOC_CMD_TIMEOUT
deriving DecidableEq

/-- The integer value the header assigns to each enumerator of `Error_t`. -/
def Error_t.toNat : Error_t → Nat
  | ERROR_NONE => 0
  | ERROR_PHASE_RESISTANCE_OUT_OF_RANGE => 0x0001
  | ERROR_PHASE_INDUCTANCE_OUT_OF_RANGE => 0x0002
  | ERROR_ADC_FAILED => 0x0004
  | ERROR_DRV_FAULT => 0x0008
  | ERROR_CONTROL_DEADLINE_MISSED => 0x0010
  | ERROR_NOT_IMPLEMENTED_MOTOR_TYPE => 0x0020
  | ERROR_BRAKE_CURRENT_OUT_OF_RANGE => 0x0040
  | ERROR_MODULATION_MAGNITUDE => 0x0080
  | ERROR_BRAKE_DEADTIME_VIOLATION => 0x0100
  | ERROR_UNEXPECTED_TIMER_CALLBACK => 0x0200
  | ERROR_CURRENT_SENSE_SATURATION => 0x0400
  | ERROR_INVERTER_OVER_TEMP => 0x0800
  | ERROR_CURRENT_SENSOR => 0x1000
  | ERROR_BRAKE_RESISTOR_DISARMED => 0x2000
  | ERROR_NOT_CALIBRATED => 0x4000
  | ERROR_CURRENT_SENSOR_DEAD => 0x8000
  | ERROR_V_BUS_SENSOR_DEAD => 0x10000
  | ERROR_TOO_NOISY => 0x20000
  | ERROR_I_BUS_OUT_OF_RANGE => 0x40000
  | ERROR_TIMER_UPDATE_MISSED => 0x80000
  | ERROR_CONTROLLER_FAILED => 0x100000
  | ERROR_DC_BUS_UNDER_VOLTAGE => 0x200000
  | ERROR_DC_BUS_OVER_VOLTAGE => 0x400000
  | ERROR_FAILED_TO_ARM => 0x800000
  | ERROR_FOC_TIMEOUT => 0x1000000
  | ERROR_LEAK_CURRENT_TOO_HIGH => 0x2000000
  | ERROR_MOTOR_OVER_TEMP => 0x4000000
  | ERROR_INVALID_FREQ_SETTING => 0x8000000
  | ERROR_FOC_CMD_TIMEOUT => 0x10000000

/-- A run-time value of type `Error_t`: the underlying integer.  With the flag
operators of `DEFINE_ENUM_FLAG_OPERATORS(Motor::Error_t)` a value is any
bitwise combination of enumerators, so it is kept as the integer itself;
`|` and `&` on it are `|||` and `&&&`. -/
abbrev ErrorMask := Nat

/-- The enumerators of `Motor::MotorType_t`. -/
inductive MotorType_t where
  | MOTOR_TYPE_HIGH_CURRENT
  | MOTOR_TYPE_GIMBAL
deriving DecidableEq

/-- The integer value of each enumerator of `MotorType_t`. -/
def MotorType_t.toNat : MotorType_t → Nat
  | MOTOR_TYPE_HIGH_CURRENT => 0
  | MOTOR_TYPE_GIMBAL => 2

/-- The struct `Motor::Iph_ABC_t`. -/
structure Iph_ABC_t where
  phA : float
  phB : float
  phC : float
deriving DecidableEq

/-- The struct `Motor::CurrentControl_t` with its default member initialisers. -/
structure CurrentControl_t where
  p_gain : float := float.lit 0 0
  i_gain : float := float.lit 0 0
  enable_current_control : Bool := false
  phase : float := float.lit 0 0
  phase_vel : float := float.lit 0 0
  Id_setpoint : float := float.lit 0 0
  Iq_setpoint : float := float.lit 0 0
  Vd_setpoint : float := float.lit 0 0
  Vq_setpoint : float := float.lit 0 0
  cmd_timeout_us : Nat := 0
  cmd_timestamp_us : Nat := 0
  v_current_control_integral_d : float := float.lit 0 0
  v_current_control_integral_q : float := float.lit 0 0
  final_v_d : float := float.lit 0 0
  final_v_q : float := float.lit 0 0
  final_v_alpha : float := float.lit 0 0
  final_v_beta : float := float.lit 0 0
  Ibus : float := float.lit 0 0
  Iq_measured : float := float.lit 0 0
  Id_measured : float := float.lit 0 0
  max_allowed_current : float := float.lit 0 0
  overcurrent_trip_level : Iph_ABC_t := ⟨float.lit 0 0, float.lit 0 0, float.lit 0 0⟩
deriving DecidableEq

/-- The struct `Motor::Config_t` with its default member initialisers. -/
structure Config_t where
  pre_calibrated : Bool := false
  async_calibrated : Bool := false
  pole_pairs : Int := 7
  calibration_current : float := float.lit 10 0
  resistance_calib_max_voltage : float := float.lit 2 0
  phase_inductance : float := float.lit 0 0
  phase_resistance : float := float.lit 0 0
  rotor_inductance : float := float.lit 0 0
  rotor_resistance : float := float.lit 0 0
  mutual_inductance : float := float.lit 0 0
  direction : Int := 0
  motor_type : MotorType_t := MotorType_t.MOTOR_TYPE_HIGH_CURRENT
  current_lim : float := float.lit 10 0
  requested_current_range : float := float.lit 60 0
  current_control_bandwidth : float := float.lit 1000 0
  inverter_temp_limit_lower : float := float.lit 100 0
  inverter_temp_limit_upper : float := float.lit 120 0
  motor_temp_limit_lower : float := float.lit 100 0
  motor_temp_limit_upper : float := float.lit 120 0
  phase_delay : float := float.lit 0 0
  I_bus_hard_min : float := INFINITY.neg
  I_bus_hard_max : float := INFINITY
  I_bus_soft_max : float := INFINITY
  max_leak_current : float := INFINITY
  switching_frequency : float := float.lit 0 0
  control_frequency_divider : Nat := 0
  vbus_voltage_override : float := float.lit 0 0
  motor_temp_override : float := NAN
  calib_tau : float := float.lit 2 1
  I_measured_tau : float := float.lit 0 0
  I_measured_report_filter_tau : float := float.lit 0 0
  inv_temp_tau : float := float.lit 1 2
  motor_temp_tau : float := float.lit 1 2
  vbus_voltage_tau : float := float.lit 1 2
deriving DecidableEq

/-- The enumerators of `Motor::TimingLog_t`. -/
inductive TimingLog_t where
  | TIMING_LOG_UPDATE_START
  | TIMING_LOG_CURRENT_MEAS
  | TIMING_LOG_DC_CAL
  | TIMING_LOG_CTRL_DONE
  | TIMING_LOG_NUM_SLOTS
deriving DecidableEq

/-- The integer value of each enumerator of `TimingLog_t`: none is given in the
header, so they count up from zero. -/
def TimingLog_t.toNat : TimingLog_t → Nat
  | TIMING_LOG_UPDATE_START => 0
  | TIMING_LOG_CURRENT_MEAS => 1
  | TIMING_LOG_DC_CAL => 2
  | TIMING_LOG_CTRL_DONE => 3
  | TIMING_LOG_NUM_SLOTS => 4

/-- The enumerators of `Motor::UpdateMode_t`. -/
inductive UpdateMode_t where
  | NONE
  | ON_BOTTOM
  | ON_TOP
  | ON_BOTH
deriving DecidableEq

/-- The integer value the header assigns to each enumerator of `UpdateMode_t`. -/
def UpdateMode_t.toNat : UpdateMode_t → Nat
  | NONE => 0
  | ON_BOTTOM => 0x1
  | ON_TOP => 0x2
  | ON_BOTH => 0x3

/-! ## The data members of `class Motor` -/

/-- The data members of `class Motor`, in the order of the header, each with
its default member initialiser.  `period_`, `timer_sync_delay_` and
`target_period_` have none. -/
structure Motor where
  config_ : Config_t := {}
  axis_ : ptr := none
  pwm_update_mode_ : UpdateMode_t := UpdateMode_t.ON_TOP
  current_sample_mode_ : UpdateMode_t := UpdateMode_t.ON_BOTTOM
  current_dc_calib_mode_ : UpdateMode_t := UpdateMode_t.ON_TOP
  timing_log_ : Mathlib.Vector Nat TimingLog_t.TIMING_LOG_NUM_SLOTS.toNat :=
    Mathlib.Vector.replicate TimingLog_t.TIMING_LOG_NUM_SLOTS.toNat 0
  error_ : ErrorMask := Error_t.ERROR_NONE.toNat
  is_armed_ : Bool := false
  is_calibrated_ : Bool := false
  current_meas_ : Iph_ABC_t := ⟨float.lit 0 0, float.lit 0 0, float.lit 0 0⟩
  DC_calib_ : Iph_ABC_t := ⟨float.lit 0 0, float.lit 0 0, float.lit 0 0⟩
  I_alpha_beta_measured_ : Mathlib.Vector float 2 := ⟨[float.lit 0 0, float.lit 0 0], rfl⟩
  I_leak : float := float.lit 0 0
  current_sense_saturation_ : Bool := false
  I_bus_ : float := float.lit 0 0
  vbus_voltage_ : float := INFINITY
  update_events_ : Nat := 0
  counting_down_ : Bool := false
  field_weakening_status_ : Nat := 0
  current_control_ : CurrentControl_t := {}
  thermal_current_lim_ : float := float.lit 10 0
  inv_temp_a_ : float := INFINITY.neg
  inv_temp_b_ : float := INFINITY.neg
  inv_temp_c_ : float := INFINITY.neg
  max_inv_temp_ : float := INFINITY.neg
  motor_temp_a_ : float := INFINITY.neg
  motor_temp_b_ : float := INFINITY.neg
  motor_temp_c_ : float := INFINITY.neg
  max_motor_temp_ : float := INFINITY.neg
  control_law_ : control_law_t := none
  control_law_ctx_ : ptr := none
  timer_freq_ : float := float.lit 0 0
  period_ : Nat
  timer_sync_delay_ : Nat
  target_period_ : Nat

/-- A default-initialised `Motor`: every member takes its default member
initialiser; the three members without one hold whatever the storage held. -/
def Motor.init (period_ timer_sync_delay_ target_period_ : Nat) : Motor :=
  { period_ := period_, timer_sync_delay_ := timer_sync_delay_, target_period_ := target_period_ }

/-! ## Addresses of data members -/

/-- The scalar data members of `Iph_ABC_t`. -/
inductive Iph_ABC_t.Member where
  | phA
  | phB
  | phC
deriving DecidableEq

/-- The C++ type of each data member of `Iph_ABC_t`. -/
def Iph_ABC_t.Member.type : Iph_ABC_t.Member → Type
  | phA => float
  | phB => float
  | phC => float

/-- Read a data member of a `Iph_ABC_t`. -/
def Iph_ABC_t.get : (m : Iph_ABC_t.Member) → Iph_ABC_t → m.type
  | .phA, c => c.phA
  | .phB, c => c.phB
  | .phC, c => c.phC

/-- Assign to a data member of a `Iph_ABC_t`; the other members keep their values. -/
def Iph_ABC_t.set : (m : Iph_ABC_t.Member) → m.type → Iph_ABC_t → Iph_ABC_t
  | .phA, v, c => { c with phA := v }
  | .phB, v, c => { c with phB := v }
  | .phC, v, c => { c with phC := v }

/-- The scalar data members of `CurrentControl_t`; `overcurrent_trip_level` has one per phase. -/
inductive CurrentControl_t.Member where
  | p_gain
  | i_gain
  | enable_current_control
  | phase
  | phase_vel
  | Id_setpoint
  | Iq_setpoint
  | Vd_setpoint
  | Vq_setpoint
  | cmd_timeout_us
  | cmd_timestamp_us
  | v_current_control_integral_d
  | v_current_control_integral_q
  | final_v_d
  | final_v_q
  | final_v_alpha
  | final_v_beta
  | Ibus
  | Iq_measured
  | Id_measured
  | max_allowed_current
  | overcurrent_trip_level (ph : Iph_ABC_t.Member)
deriving DecidableEq

/-- The C++ type of each data member of `CurrentControl_t`. -/
def CurrentControl_t.Member.type : CurrentControl_t.Member → Type
  | p_gain => float
  | i_gain => float
  | enable_current_control => Bool
  | phase => float
  | phase_vel => float
  | Id_setpoint => float
  | Iq_setpoint => float
  | Vd_setpoint => float
  | Vq_setpoint => float
  | cmd_timeout_us => Nat
  | cmd_timestamp_us => Nat
  | v_current_control_integral_d => float
  | v_current_control_integral_q => float
  | final_v_d => float
  | final_v_q => float
  | final_v_alpha => float
  | final_v_beta => float
  | Ibus => float
  | Iq_measured => float
  | Id_measured => float
  | max_allowed_current => float
  | overcurrent_trip_level ph => ph.type

/-- Read a data member of a `CurrentControl_t`. -/
def CurrentControl_t.get : (m : CurrentControl_t.Member) → CurrentControl_t → m.type
  | .p_gain, c => c.p_gain
  | .i_gain, c => c.i_gain
  | .enable_current_control, c => c.enable_current_control
  | .phase, c => c.phase
  | .phase_vel, c => c.phase_vel
  | .Id_setpoint, c => c.Id_setpoint
  | .Iq_setpoint, c => c.Iq_setpoint
  | .Vd_setpoint, c => c.Vd_setpoint
  | .Vq_setpoint, c => c.Vq_setpoint
  | .cmd_timeout_us, c => c.cmd_timeout_us
  | .cmd_timestamp_us, c => c.cmd_timestamp_us
  | .v_current_control_integral_d, c => c.v_current_control_integral_d
  | .v_current_control_integral_q, c => c.v_current_control_integral_q
  | .final_v_d, c => c.final_v_d
  | .final_v_q, c => c.final_v_q
  | .final_v_alpha, c => c.final_v_alpha
  | .final_v_beta, c => c.final_v_beta
  | .Ibus, c => c.Ibus
  | .Iq_measured, c => c.Iq_measured
  | .Id_measured, c => c.Id_measured
  | .max_allowed_current, c => c.max_allowed_current
  | .overcurrent_trip_level ph, c => c.overcurrent_trip_level.get ph

/-- Assign to a data member of a `CurrentControl_t`; the other members keep their values. -/
def CurrentControl_t.set : (m : CurrentControl_t.Member) → m.type → CurrentControl_t → CurrentControl_t
  | .p_gain, v, c => { c with p_gain := v }
  | .i_gain, v, c => { c with i_gain := v }
  | .enable_current_control, v, c => { c with enable_current_control := v }
  | .phase, v, c => { c with phase := v }
  | .phase_vel, v, c => { c with phase_vel := v }
  | .Id_setpoint, v, c => { c with Id_setpoint := v }
  | .Iq_setpoint, v, c => { c with Iq_setpoint := v }
  | .Vd_setpoint, v, c => { c with Vd_setpoint := v }
  | .Vq_setpoint, v, c => { c with Vq_setpoint := v }
  | .cmd_timeout_us, v, c => { c with cmd_timeout_us := v }
  | .cmd_timestamp_us, v, c => { c with cmd_timestamp_us := v }
  | .v_current_control_integral_d, v, c => { c with v_current_control_integral_d := v }
  | .v_current_control_integral_q, v, c => { c with v_current_control_integral_q := v }
  | .final_v_d, v, c => { c with final_v_d := v }
  | .final_v_q, v, c => { c with final_v_q := v }
  | .final_v_alpha, v, c => { c with final_v_alpha := v }
  | .final_v_beta, v, c => { c with final_v_beta := v }
  | .Ibus, v, c => { c with Ibus := v }
  | .Iq_measured, v, c => { c with Iq_measured := v }
  | .Id_measured, v, c => { c with Id_measured := v }
  | .max_allowed_current, v, c => { c with max_allowed_current := v }
  | .overcurrent_trip_level ph, v, c =>
    { c with overcurrent_trip_level := c.overcurrent_trip_level.set ph v }

/-- The scalar data members of `Config_t`. -/
inductive Config_t.Member where
  | pre_calibrated
  | async_calibrated
  | pole_pairs
  | calibration_current
  | resistance_calib_max_voltage
  | phase_inductance
  | phase_resistance
  | rotor_inductance
  | rotor_resistance
  | mutual_inductance
  | direction
  | motor_type
  | current_lim
  | requested_current_range
  | current_control_bandwidth
  | inverter_temp_limit_lower
  | inverter_temp_limit_upper
  | motor_temp_limit_lower
  | motor_temp_limit_upper
  | phase_delay
  | I_bus_hard_min
  | I_bus_hard_max
  | I_bus_soft_max
  | max_leak_current
  | switching_frequency
  | control_frequency_divider
  | vbus_voltage_override
  | motor_temp_override
  | calib_tau
  | I_measured_tau
  | I_measured_report_filter_tau
  | inv_temp_tau
  | motor_temp_tau
  | vbus_voltage_tau
deriving DecidableEq

/-- The C++ type of each data member of `Config_t`. -/
def Config_t.Member.type : Config_t.Member → Type
  | pre_calibrated => Bool
  | async_calibrated => Bool
  | pole_pairs => Int
  | calibration_current => float
  | resistance_calib_max_voltage => float
  | phase_inductance => float
  | phase_resistance => float
  | rotor_inductance => float
  | rotor_resistance => float
  | mutual_inductance => float
  | direction => Int
  | motor_type => MotorType_t
  | current_lim => float
  | requested_current_range => float
  | current_control_bandwidth => float
  | inverter_temp_limit_lower => float
  | inverter_temp_limit_upper => float
  | motor_temp_limit_lower => float
  | motor_temp_limit_upper => float
  | phase_delay => float
  | I_bus_hard_min => float
  | I_bus_hard_max => float
  | I_bus_soft_max => float
  | max_leak_current => float
  | switching_frequency => float
  | control_frequency_divider => Nat
  | vbus_voltage_override => float
  | motor_temp_override => float
  | calib_tau => float
  | I_measured_tau => float
  | I_measured_report_filter_tau => float
  | inv_temp_tau => float
  | motor_temp_tau => float
  | vbus_voltage_tau => float

/-- Read a data member of a `Config_t`. -/
def Config_t.get : (m : Config_t.Member) → Config_t → m.type
  | .pre_calibrated, c => c.pre_calibrated
  | .async_calibrated, c => c.async_calibrated
  | .pole_pairs, c => c.pole_pairs
  | .calibration_current, c => c.calibration_current
  | .resistance_calib_max_voltage, c => c.resistance_calib_max_voltage
  | .phase_inductance, c => c.phase_inductance
  | .phase_resistance, c => c.phase_resistance
  | .rotor_inductance, c => c.rotor_inductance
  | .rotor_resistance, c => c.rotor_resistance
  | .mutual_inductance, c => c.mutual_inductance
  | .direction, c => c.direction
  | .motor_type, c => c.motor_type
  | .current_lim, c => c.current_lim
  | .requested_current_range, c => c.requested_current_range
  | .current_control_bandwidth, c => c.current_control_bandwidth
  | .inverter_temp_limit_lower, c => c.inverter_temp_limit_lower
  | .inverter_temp_limit_upper, c => c.inverter_temp_limit_upper
  | .motor_temp_limit_lower, c => c.motor_temp_limit_lower
  | .motor_temp_limit_upper, c => c.motor_temp_limit_upper
  | .phase_delay, c => c.phase_delay
  | .I_bus_hard_min, c => c.I_bus_hard_min
  | .I_bus_hard_max, c => c.I_bus_hard_max
  | .I_bus_soft_max, c => c.I_bus_soft_max
  | .max_leak_current, c => c.max_leak_current
  | .switching_frequency, c => c.switching_frequency
  | .control_frequency_divider, c => c.control_frequency_divider
  | .vbus_voltage_override, c => c.vbus_voltage_override
  | .motor_temp_override, c => c.motor_temp_override
  | .calib_tau, c => c.calib_tau
  | .I_measured_tau, c => c.I_measured_tau
  | .I_measured_report_filter_tau, c => c.I_measured_report_filter_tau
  | .inv_temp_tau, c => c.inv_temp_tau
  | .motor_temp_tau, c => c.motor_temp_tau
  | .vbus_voltage_tau, c => c.vbus_voltage_tau

/-- Assign to a data member of a `Config_t`; the other members keep their values. -/
def Config_t.set : (m : Config_t.Member) → m.type → Config_t → Config_t
  | .pre_calibrated, v, c => { c with pre_calibrated := v }
  | .async_calibrated, v, c => { c with async_calibrated := v }
  | .pole_pairs, v, c => { c with pole_pairs := v }
  | .calibration_current, v, c => { c with calibration_current := v }
  | .resistance_calib_max_voltage, v, c => { c with resistance_calib_max_voltage := v }
  | .phase_inductance, v, c => { c with phase_inductance := v }
  | .phase_resistance, v, c => { c with phase_resistance := v }
  | .rotor_inductance, v, c => { c with rotor_inductance := v }
  | .rotor_resistance, v, c => { c with rotor_resistance := v }
  | .mutual_inductance, v, c => { c with mutual_inductance := v }
  | .direction, v, c => { c with direction := v }
  | .motor_type, v, c => { c with motor_type := v }
  | .current_lim, v, c => { c with current_lim := v }
  | .requested_current_range, v, c => { c with requested_current_range := v }
  | .current_control_bandwidth, v, c => { c with current_control_bandwidth := v }
  | .inverter_temp_limit_lower, v, c => { c with inverter_temp_limit_lower := v }
  | .inverter_temp_limit_upper, v, c => { c with inverter_temp_limit_upper := v }
  | .motor_temp_limit_lower, v, c => { c with motor_temp_limit_lower := v }
  | .motor_temp_limit_upper, v, c => { c with motor_temp_limit_upper := v }
  | .phase_delay, v, c => { c with phase_delay := v }
  | .I_bus_hard_min, v, c => { c with I_bus_hard_min := v }
  | .I_bus_hard_max, v, c => { c with I_bus_hard_max := v }
  | .I_bus_soft_max, v, c => { c with I_bus_soft_max := v }
  | .max_leak_current, v, c => { c with max_leak_current := v }
  | .switching_frequency, v, c => { c with switching_frequency := v }
  | .control_frequency_divider, v, c => { c with control_frequency_divider := v }
  | .vbus_voltage_override, v, c => { c with vbus_voltage_override := v }
  | .motor_temp_override, v, c => { c with motor_temp_override := v }
  | .calib_tau, v, c => { c with calib_tau := v }
  | .I_measured_tau, v, c => { c with I_measured_tau := v }
  | .I_measured_report_filter_tau, v, c => { c with I_measured_report_filter_tau := v }
  | .inv_temp_tau, v, c => { c with inv_temp_tau := v }
  | .motor_temp_tau, v, c => { c with motor_temp_tau := v }
  | .vbus_voltage_tau, v, c => { c with vbus_voltage_tau := v }

/-- The address of a scalar data member of a `Motor` object, as the header
takes it with `&`: `&error_`, `&config_.pole_pairs`, `&current_meas_.phA`,
`&timing_log_[i]`, ... -/
inductive Motor.Addr where
  | config_ (m : Config_t.Member)
  | timing_log_ (i : Fin TimingLog_t.TIMING_LOG_NUM_SLOTS.toNat)
  | current_meas_ (ph : Iph_ABC_t.Member)
  | DC_calib_ (ph : Iph_ABC_t.Member)
  | I_alpha_beta_measured_ (i : Fin 2)
  | current_control_ (m : CurrentControl_t.Member)
  | axis_
  | pwm_update_mode_
  | current_sample_mode_
  | current_dc_calib_mode_
  | error_
  | is_armed_
  | is_calibrated_
  | I_leak
  | current_sense_saturation_
  | I_bus_
  | vbus_voltage_
  | update_events_
  | counting_down_
  | field_weakening_status_
  | thermal_current_lim_
  | inv_temp_a_
  | inv_temp_b_
  | inv_temp_c_
  | max_inv_temp_
  | motor_temp_a_
  | motor_temp_b_
  | motor_temp_c_
  | max_motor_temp_
  | control_law_
  | control_law_ctx_
  | timer_freq_
  | period_
  | timer_sync_delay_
  | target_period_
deriving DecidableEq

/-- The C++ type of the data member at an address. -/
def Motor.Addr.type : Motor.Addr → Type
  | config_ m => m.type
  | timing_log_ _ => Nat
  | current_meas_ ph => ph.type
  | DC_calib_ ph => ph.type
  | I_alpha_beta_measured_ _ => float
  | current_control_ m => m.type
  | axis_ => ptr
  | pwm_update_mode_ => UpdateMode_t
  | current_sample_mode_ => UpdateMode_t
  | current_dc_calib_mode_ => UpdateMode_t
  | error_ => ErrorMask
  | is_armed_ => Bool
  | is_calibrated_ => Bool
  | I_leak => float
  | current_sense_saturation_ => Bool
  | I_bus_ => float
  | vbus_voltage_ => float
  | update_events_ => Nat
  | counting_down_ => Bool
  | field_weakening_status_ => Nat
  | thermal_current_lim_ => float
  | inv_temp_a_ => float
  | inv_temp_b_ => float
  | inv_temp_c_ => float
  | max_inv_temp_ => float
  | motor_temp_a_ => float
  | motor_temp_b_ => float
  | motor_temp_c_ => float
  | max_motor_temp_ => float
  | control_law_ => control_law_t
  | control_law_ctx_ => ptr
  | timer_freq_ => float
  | period_ => Nat
  | timer_sync_delay_ => Nat
  | target_period_ => Nat

/-- Read the data member at an address (`*p`). -/
def Motor.load : (a : Motor.Addr) → Motor → a.type
  | .config_ m, s => s.config_.get m
  | .timing_log_ i, s => s.timing_log_.get i
  | .current_meas_ ph, s => s.current_meas_.get ph
  | .DC_calib_ ph, s => s.DC_calib_.get ph
  | .I_alpha_beta_measured_ i, s => s.I_alpha_beta_measured_.get i
  | .current_control_ m, s => s.current_control_.get m
  | .axis_, s => s.axis_
  | .pwm_update_mode_, s => s.pwm_update_mode_
  | .current_sample_mode_, s => s.current_sample_mode_
  | .current_dc_calib_mode_, s => s.current_dc_calib_mode_
  | .error_, s => s.error_
  | .is_armed_, s => s.is_armed_
  | .is_calibrated_, s => s.is_calibrated_
  | .I_leak, s => s.I_leak
  | .current_sense_saturation_, s => s.current_sense_saturation_
  | .I_bus_, s => s.I_bus_
  | .vbus_voltage_, s => s.vbus_voltage_
  | .update_events_, s => s.update_events_
  | .counting_down_, s => s.counting_down_
  | .field_weakening_status_, s => s.field_weakening_status_
  | .thermal_current_lim_, s => s.thermal_current_lim_
  | .inv_temp_a_, s => s.inv_temp_a_
  | .inv_temp_b_, s => s.inv_temp_b_
  | .inv_temp_c_, s => s.inv_temp_c_
  | .max_inv_temp_, s => s.max_inv_temp_
  | .motor_temp_a_, s => s.motor_temp_a_
  | .motor_temp_b_, s => s.motor_temp_b_
  | .motor_temp_c_, s => s.motor_temp_c_
  | .max_motor_temp_, s => s.max_motor_temp_
  | .control_law_, s => s.control_law_
  | .control_law_ctx_, s => s.control_law_ctx_
  | .timer_freq_, s => s.timer_freq_
  | .period_, s => s.period_
  | .timer_sync_delay_, s => s.timer_sync_delay_
  | .target_period_, s => s.target_period_

/-- Assign through an address (`*p = v`); every other data member keeps its value. -/
def Motor.store : (a : Motor.Addr) → a.type → Motor → Motor
  | .config_ m, v, s => { s with config_ := s.config_.set m v }
  | .timing_log_ i, v, s => { s with timing_log_ := s.timing_log_.set i v }
  | .current_meas_ ph, v, s => { s with current_meas_ := s.current_meas_.set ph v }
  | .DC_calib_ ph, v, s => { s with DC_calib_ := s.DC_calib_.set ph v }
  | .I_alpha_beta_measured_ i, v, s =>
    { s with I_alpha_beta_measured_ := s.I_alpha_beta_measured_.set i v }
  | .current_control_ m, v, s => { s with current_control_ := s.current_control_.set m v }
  | .axis_, v, s => { s with axis_ := v }
  | .pwm_update_mode_, v, s => { s with pwm_update_mode_ := v }
  | .current_sample_mode_, v, s => { s with current_sample_mode_ := v }
  | .current_dc_calib_mode_, v, s => { s with current_dc_calib_mode_ := v }
  | .error_, v, s => { s with error_ := v }
  | .is_armed_, v, s => { s with is_armed_ := v }
  | .is_calibrated_, v, s => { s with is_calibrated_ := v }
  | .I_leak, v, s => { s with I_leak := v }
  | .current_sense_saturation_, v, s => { s with current_sense_saturation_ := v }
  | .I_bus_, v, s => { s with I_bus_ := v }
  | .vbus_voltage_, v, s => { s with vbus_voltage_ := v }
  | .update_events_, v, s => { s with update_events_ := v }
  | .counting_down_, v, s => { s with counting_down_ := v }
  | .field_weakening_status_, v, s => { s with field_weakening_status_ := v }
  | .thermal_current_lim_, v, s => { s with thermal_current_lim_ := v }
  | .inv_temp_a_, v, s => { s with inv_temp_a_ := v }
  | .inv_temp_b_, v, s => { s with inv_temp_b_ := v }
  | .inv_temp_c_, v, s => { s with inv_temp_c_ := v }
  | .max_inv_temp_, v, s => { s with max_inv_temp_ := v }
  | .motor_temp_a_, v, s => { s with motor_temp_a_ := v }
  | .motor_temp_b_, v, s => { s with motor_temp_b_ := v }
  | .motor_temp_c_, v, s => { s with motor_temp_c_ := v }
  | .max_motor_temp_, v, s => { s with max_motor_temp_ := v }
  | .control_law_, v, s => { s with control_law_ := v }
  | .control_law_ctx_, v, s => { s with control_law_ctx_ := v }
  | .timer_freq_, v, s => { s with timer_freq_ := v }
  | .period_, v, s => { s with period_ := v }
  | .timer_sync_delay_, v, s => { s with timer_sync_delay_ := v }
  | .target_period_, v, s => { s with target_period_ := v }

/-! ## Member functions without a body in the header

`class Motor` declares its member functions pure virtual (`= 0`); their bodies
are in a subclass that this header does not contain. -/

/-- The two pure-virtual member functions that the after-write hooks of
`make_protocol_definitions` call.  Their bodies are not in the header, so they
are arguments: `update_switching_frequency` returns its `bool` and the state it
leaves, `update_current_controller_gains` the state it leaves. -/
structure Impl where
  update_switching_frequency : Motor → Bool × Motor
  update_current_controller_gains : Motor → Motor

/-- Modelled from the spec: the "explicitly benign subset" of fault codes that
`set_error` would not disarm on; the body of `set_error` is not in the header.
Section 4.4: "none currently are". -/
def benign (_error : ErrorMask) : Bool := false

/-- Modelled from the spec: `Motor::disarm(bool* was_armed)`, pure virtual in the
header.  Section 4.4: "allowed from any state; clears the armed flag and the
installed control law/context together"; "Idempotent: disarming an
already-disarmed motor succeeds and reports was not armed"; section 8: called
"while already disarmed" it "returns was not armed and performs no state change
beyond idempotent flag clears".  An armed motor has its control law, context
and armed flag cleared; a disarmed motor is left as it is.  The result is the
returned `bool`, the value stored to `*was_armed`, and the state left. -/
def Motor.disarm (s : Motor) : Bool × Bool × Motor :=
  if s.is_armed_ = true then
    (true, true,
      { s with control_law_ := none, control_law_ctx_ := none, is_armed_ := false })
  else
    (true, false, s)

/-- Modelled from the spec: `Motor::set_error(Error_t error)`, pure virtual in
the header.  Section 4.4: "this ORs the code into the sticky error bitmask and,
unless the code is in an explicitly benign subset (none currently are),
immediately forces a `disarm()`". -/
def Motor.set_error (s : Motor) (error : ErrorMask) : Motor :=
  let s1 := { s with error_ := s.error_ ||| error }
  if benign error then s1 else s1.disarm.2.2

/-- Modelled from the spec: `Motor::arm(control_law_t control_law, void* ctx)`,
pure virtual in the header.  Section 4.4: "allowed only from a disarmed state;
atomically installs the control law reference + context and sets armed; fails
(`ERROR_FAILED_TO_ARM`) if any sticky fault bit is already set, if the timer is
not producing update events, or if preconditions of the specific control law
(e.g. calibration required) are unmet"; section 3: the control-law reference is
"present iff armed" and the integral accumulators "are reset whenever the
control law transitions from disarmed to armed"; section 8: the motor "is never
observed armed with a null/absent control law".  A null `control_law` is
therefore an unmet precondition: there is no control law to install.  Whether
the timer produces update events and whether the preconditions of the control
law hold are inputs.  The result is the returned `bool` and the state left. -/
def Motor.arm (s : Motor) (control_law : control_law_t) (ctx : ptr)
    (timer_running preconditions_met : Bool) : Bool × Motor :=
  if control_law.isSome = true ∧ s.is_armed_ = false ∧ s.error_ = Error_t.ERROR_NONE.toNat
      ∧ timer_running = true ∧ preconditions_met = true then
    (true,
      { s with
        control_law_ := control_law
        control_law_ctx_ := ctx
        current_control_ :=
          { s.current_control_ with
            v_current_control_integral_d := float.lit 0 0
            v_current_control_integral_q := float.lit 0 0 }
        is_armed_ := true })
  else
    (false, s.set_error Error_t.ERROR_FAILED_TO_ARM.toNat)

/-- Modelled from the spec: `Motor::arm_foc()`, pure virtual in the header.
Section 4.4: "convenience transition into the standard closed-loop FOC control
law; same preconditions as `arm`, additionally requires the calibrated flag".
`foc_control_law` is the address of the standard FOC control-law function and
`foc_ctx` the context it is installed with. -/
def Motor.arm_foc (s : Motor) (foc_control_law : Nat) (foc_ctx : ptr)
    (timer_running preconditions_met : Bool) : Bool × Motor :=
  if s.is_calibrated_ = true then
    s.arm (some foc_control_law) foc_ctx timer_running preconditions_met
  else
    (false, s.set_error Error_t.ERROR_FAILED_TO_ARM.toNat)

/-- One call of the arm/disarm interface, with its arguments and the inputs it
reads from its surroundings. -/
inductive Call where
  | arm (control_law : control_law_t) (ctx : ptr) (timer_running preconditions_met : Bool)
  | arm_foc (foc_control_law : Nat) (foc_ctx : ptr) (timer_running preconditions_met : Bool)
  | disarm
  | set_error (error : ErrorMask)
deriving DecidableEq

/-- Run one call: the returned `bool` (`true` for the `void` `set_error`) and
the state left. -/
def Motor.call (s : Motor) : Call → Bool × Motor
  | Call.arm control_law ctx timer_running preconditions_met =>
    s.arm control_law ctx timer_running preconditions_met
  | Call.arm_foc foc_control_law foc_ctx timer_running preconditions_met =>
    s.arm_foc foc_control_law foc_ctx timer_running preconditions_met
  | Call.disarm => (s.disarm.1, s.disarm.2.2)
  | Call.set_error error => (true, s.set_error error)

/-- One property of the protocol tree: its name, the data member it points at,
whether it was made by `make_protocol_property` (read/write) or by
`make_protocol_ro_property` (read-only), and the lambda to run on the motor
after a write, if one was passed. -/
structure ProtocolProperty where
  name : String
  property : Motor.Addr
  writable : Bool
  written_hook : Option (Impl → Motor → Motor)

/-- A member of the list `make_protocol_member_list` builds: a property, or a
named object holding properties (the header nests one level). -/
inductive ProtocolMember where
  | property (p : ProtocolProperty)
  | object (name : String) (members : List ProtocolProperty)

instance : Coe ProtocolProperty ProtocolMember := ⟨ProtocolMember.property⟩

/-- The call `make_protocol_property(name, &member)`. -/
def make_protocol_property (name : String) (property : Motor.Addr) : ProtocolProperty :=
  ⟨name, property, true, none⟩

/-- The call `make_protocol_property(name, &member, hook, this)`. -/
def make_protocol_property_hooked (name : String) (property : Motor.Addr)
    (written_hook : Impl → Motor → Motor) : ProtocolProperty :=
  ⟨name, property, true, some written_hook⟩

/-- The call `make_protocol_ro_property(name, &member)`. -/
def make_protocol_ro_property (name : String) (property : Motor.Addr) : ProtocolProperty :=
  ⟨name, property, false, none⟩

/-- The call `make_protocol_object(name, members...)`. -/
def make_protocol_object (name : String) (members : List ProtocolProperty) : ProtocolMember :=
  ProtocolMember.object name members

/-- The call `make_protocol_member_list(members...)`. -/
def make_protocol_member_list (members : List ProtocolMember) : List ProtocolMember :=
  members

/-- The lambda passed with `config.pre_calibrated`:
`update_current_controller_gains(); is_calibrated_ = config_.pre_calibrated;`. -/
def pre_calibrated_hook (impl : Impl) (s : Motor) : Motor :=
  let s1 := impl.update_current_controller_gains s
  { s1 with is_calibrated_ := s1.config_.pre_calibrated }

/-- The lambda passed with `config.current_control_bandwidth`:
`update_current_controller_gains();`. -/
def current_control_bandwidth_hook (impl : Impl) (s : Motor) : Motor :=
  impl.update_current_controller_gains s

/-- The lambda passed with `config.switching_frequency` and with
`config.control_frequency_divider`: `update_switching_frequency();`, the
returned `bool` dropped. -/
def switching_frequency_hook (impl : Impl) (s : Motor) : Motor :=
  (impl.update_switching_frequency s).2

/-- The slot of `timing_log_` a `TimingLog_t` checkpoint indexes. -/
def timing_log_slot (i : Nat) (h : i < TimingLog_t.TIMING_LOG_NUM_SLOTS.toNat) :
    Fin TimingLog_t.TIMING_LOG_NUM_SLOTS.toNat :=
  ⟨i, h⟩

/-- The member list `Motor::make_protocol_definitions` returns, entry by entry. -/
def make_protocol_definitions : List ProtocolMember :=
  make_protocol_member_list [
    make_protocol_property "error" .error_,
    make_protocol_ro_property "is_armed" .is_armed_,
    make_protocol_ro_property "is_calibrated" .is_calibrated_,
    make_protocol_ro_property "vbus_voltage" .vbus_voltage_,
    make_protocol_ro_property "current_meas_phA" (.current_meas_ .phA),
    make_protocol_ro_property "current_meas_phB" (.current_meas_ .phB),
    make_protocol_ro_property "current_meas_phC" (.current_meas_ .phC),
    make_protocol_property "DC_calib_phA" (.DC_calib_ .phA),
    make_protocol_property "DC_calib_phB" (.DC_calib_ .phB),
    make_protocol_property "DC_calib_phC" (.DC_calib_ .phC),
    make_protocol_ro_property "I_alpha" (.I_alpha_beta_measured_ 0),
    make_protocol_ro_property "I_beta" (.I_alpha_beta_measured_ 1),
    make_protocol_ro_property "I_leak" .I_leak,
    make_protocol_ro_property "thermal_current_lim" .thermal_current_lim_,
    make_protocol_ro_property "inv_temp_a" .inv_temp_a_,
    make_protocol_ro_property "inv_temp_b" .inv_temp_b_,
    make_protocol_ro_property "inv_temp_c" .inv_temp_c_,
    make_protocol_property "max_inv_temp" .max_inv_temp_,
    make_protocol_ro_property "motor_temp_a" .motor_temp_a_,
    make_protocol_ro_property "motor_temp_b" .motor_temp_b_,
    make_protocol_ro_property "motor_temp_c" .motor_temp_c_,
    make_protocol_property "max_motor_temp" .max_motor_temp_,
    make_protocol_ro_property "update_events" .update_events_,
    make_protocol_ro_property "timer_freq" .timer_freq_,
    make_protocol_property "field_weakening_status" .field_weakening_status_,
    make_protocol_object "current_control" [
      make_protocol_property "p_gain" (.current_control_ .p_gain),
      make_protocol_property "i_gain" (.current_control_ .i_gain),
      make_protocol_property "v_current_control_integral_d"
        (.current_control_ .v_current_control_integral_d),
      make_protocol_property "v_current_control_integral_q"
        (.current_control_ .v_current_control_integral_q),
      make_protocol_property "phase" (.current_control_ .phase),
      make_protocol_property "phase_vel" (.current_control_ .phase_vel),
      make_protocol_property "final_v_d" (.current_control_ .final_v_d),
      make_protocol_property "final_v_q" (.current_control_ .final_v_q),
      make_protocol_property "final_v_alpha" (.current_control_ .final_v_alpha),
      make_protocol_property "final_v_beta" (.current_control_ .final_v_beta),
      make_protocol_property "Id_setpoint" (.current_control_ .Id_setpoint),
      make_protocol_property "Iq_setpoint" (.current_control_ .Iq_setpoint),
      make_protocol_property "Vd_setpoint" (.current_control_ .Vd_setpoint),
      make_protocol_property "Vq_setpoint" (.current_control_ .Vq_setpoint),
      make_protocol_property "Id_measured" (.current_control_ .Id_measured),
      make_protocol_property "Iq_measured" (.current_control_ .Iq_measured),
      make_protocol_ro_property "max_allowed_current" (.current_control_ .max_allowed_current),
      make_protocol_ro_property "overcurrent_trip_level_a"
        (.current_control_ (.overcurrent_trip_level .phA)),
      make_protocol_ro_property "overcurrent_trip_level_b"
        (.current_control_ (.overcurrent_trip_level .phB)),
      make_protocol_ro_property "overcurrent_trip_level_c"
        (.current_control_ (.overcurrent_trip_level .phC))
    ],
    make_protocol_object "timing_log" [
      make_protocol_ro_property "TIMING_LOG_UPDATE_START"
        (.timing_log_ (timing_log_slot TimingLog_t.TIMING_LOG_UPDATE_START.toNat (by decide))),
      make_protocol_ro_property "TIMING_LOG_CURRENT_MEAS"
        (.timing_log_ (timing_log_slot TimingLog_t.TIMING_LOG_CURRENT_MEAS.toNat (by decide))),
      make_protocol_ro_property "TIMING_LOG_DC_CAL"
        (.timing_log_ (timing_log_slot TimingLog_t.TIMING_LOG_DC_CAL.toNat (by decide))),
      make_protocol_ro_property "TIMING_LOG_CTRL_DONE"
        (.timing_log_ (timing_log_slot TimingLog_t.TIMING_LOG_CTRL_DONE.toNat (by decide)))
    ],
    make_protocol_object "config" [
      make_protocol_property_hooked "pre_calibrated" (.config_ .pre_calibrated)
        pre_calibrated_hook,
      make_protocol_property "async_calibrated" (.config_ .async_calibrated),
      make_protocol_property "pole_pairs" (.config_ .pole_pairs),
      make_protocol_property "calibration_current" (.config_ .calibration_current),
      make_protocol_property "resistance_calib_max_voltage"
        (.config_ .resistance_calib_max_voltage),
      make_protocol_property "phase_inductance" (.config_ .phase_inductance),
      make_protocol_property "phase_resistance" (.config_ .phase_resistance),
      make_protocol_property "rotor_inductance" (.config_ .rotor_inductance),
      make_protocol_property "rotor_resistance" (.config_ .rotor_resistance),
      make_protocol_property "mutual_inductance" (.config_ .mutual_inductance),
      make_protocol_property "direction" (.config_ .direction),
      make_protocol_property "motor_type" (.config_ .motor_type),
      make_protocol_property "current_lim" (.config_ .current_lim),
      make_protocol_property "inverter_temp_limit_lower" (.config_ .inverter_temp_limit_lower),
      make_protocol_property "inverter_temp_limit_upper" (.config_ .inverter_temp_limit_upper),
      make_protocol_property "motor_temp_limit_lower" (.config_ .motor_temp_limit_lower),
      make_protocol_property "motor_temp_limit_upper" (.config_ .motor_temp_limit_upper),
      make_protocol_property "requested_current_range" (.config_ .requested_current_range),
      make_protocol_property_hooked "current_control_bandwidth"
        (.config_ .current_control_bandwidth) current_control_bandwidth_hook,
      make_protocol_property "phase_delay" (.config_ .phase_delay),
      make_protocol_property "I_bus_hard_min" (.config_ .I_bus_hard_min),
      make_protocol_property "I_bus_hard_max" (.config_ .I_bus_hard_max),
      make_protocol_property "max_leak_current" (.config_ .max_leak_current),
      make_protocol_property_hooked "switching_frequency" (.config_ .switching_frequency)
        switching_frequency_hook,
      make_protocol_property_hooked "control_frequency_divider"
        (.config_ .control_frequency_divider) switching_frequency_hook,
      make_protocol_property "vbus_voltage_override" (.config_ .vbus_voltage_override),
      make_protocol_property "motor_temp_override" (.config_ .motor_temp_override),
      make_protocol_property "calib_tau" (.config_ .calib_tau),
      make_protocol_property "I_measured_tau" (.config_ .I_measured_tau),
      make_protocol_property "I_measured_report_filter_tau"
        (.config_ .I_measured_report_filter_tau),
      make_protocol_property "inv_temp_tau" (.config_ .inv_temp_tau),
      make_protocol_property "motor_temp_tau" (.config_ .motor_temp_tau),
      make_protocol_property "vbus_voltage_tau" (.config_ .vbus_voltage_tau)
    ]
  ]

/-- The properties of a member of the list: itself, or those of the object. -/
def ProtocolMember.properties : ProtocolMember → List ProtocolProperty
  | property p => [p]
  | object _ members => members

/-- Every property of the protocol tree, in the order of the header. -/
def all_properties : List ProtocolProperty :=
  make_protocol_definitions.flatMap ProtocolMember.properties

/-- The properties of the objects called `name` in a member list. -/
def object_properties (name : String) (members : List ProtocolMember) : List ProtocolProperty :=
  members.flatMap fun
    | ProtocolMember.property _ => []
    | ProtocolMember.object n ps => if n = name then ps else []

/-- The properties of the `"config"` object of `make_protocol_definitions`. -/
def config_properties : List ProtocolProperty :=
  object_properties "config" make_protocol_definitions

/-- The property reached by a path: `[name]` at the top level, `[object, name]`
inside an object. -/
def find_property (path : List String) : Option ProtocolProperty :=
  match path with
  | [name] =>
    (make_protocol_definitions.flatMap fun
      | ProtocolMember.property p => [p]
      | ProtocolMember.object _ _ => []).find? (fun p => p.name = name)
  | [object, name] =>
    (object_properties object make_protocol_definitions).find? (fun p => p.name = name)
  | _ => none

/-- Modelled from the spec: a write to a property over the protocol; the code
that serves the write (`fibre/protocol.hpp`) is not in the header.  Section 6:
the fields are exposed for "read/write access" and some "carry side-effecting
setters that must re-trigger a dependent recomputation".  A read-only property
takes no write; a write to a property assigns the value through the member
pointer and then runs the hook of the property on the motor, if it has one. -/
def ProtocolProperty.write (impl : Impl) (p : ProtocolProperty) (v : p.property.type)
    (s : Motor) : Motor :=
  if p.writable then
    match p.written_hook with
    | none => s.store p.property v
    | some hook => hook impl (s.store p.property v)
  else s

/-- Whether a data member of `Config_t` is the target of a writable property of
the `"config"` object. -/
def Config_t.Member.exposed (m : Config_t.Member) : Bool :=
  config_properties.any fun p => p.writable && decide (p.property = Motor.Addr.config_ m)

/-! ## Lemmas on member addresses -/

theorem Iph_ABC_t.get_set_ne_Iph_ABC_t (m n : Iph_ABC_t.Member) (h : m ≠ n) (v : m.type) (c : Iph_ABC_t) :
    (c.set m v).get n = c.get n := by
  cases m <;> cases n <;> first | rfl | exact absurd rfl h

theorem Config_t.get_set_ne_Config_t (m n : Config_t.Member) (h : m ≠ n) (v : m.type) (c : Config_t) :
    (c.set m v).get n = c.get n := by
  cases m <;> cases n <;> first | rfl | exact absurd rfl h

theorem CurrentControl_t.get_set_ne_CurrentControl_t (m n : CurrentControl_t.Member) (h : m ≠ n) (v : m.type)
    (c : CurrentControl_t) : (c.set m v).get n = c.get n := by
  cases m <;> cases n <;>
    first
    | rfl
    | exact absurd rfl h
    | exact Iph_ABC_t.get_set_ne_Iph_ABC_t _ _ (fun e => h (congrArg _ e)) _ _

/-- Assigning through one address leaves what every other address holds. -/
theorem Motor.load_store_ne (a b : Motor.Addr) (h : a ≠ b) (v : a.type) (s : Motor) :
    (s.store a v).load b = s.load b := by
  cases a <;> cases b <;>
    first
    | rfl
    | exact absurd rfl h
    | exact Config_t.get_set_ne_Config_t _ _ (fun e => h (congrArg _ e)) _ _
    | exact CurrentControl_t.get_set_ne_CurrentControl_t _ _ (fun e => h (congrArg _ e)) _ _
    | exact Iph_ABC_t.get_set_ne_Iph_ABC_t _ _ (fun e => h (congrArg _ e)) _ _
    | exact Mathlib.Vector.get_set_of_ne (fun e => h (congrArg _ e)) _

/-- Reading back through the address just assigned gives the value assigned. -/
theorem Motor.load_store_same (a : Motor.Addr) (v : a.type) (s : Motor) :
    (s.store a v).load a = v := by
  cases a with
  | config_ m => cases m <;> rfl
  | current_control_ m =>
    cases m with
    | overcurrent_trip_level ph => cases ph <;> rfl
    | _ => rfl
  | current_meas_ ph => cases ph <;> rfl
  | DC_calib_ ph => cases ph <;> rfl
  | timing_log_ i => exact Mathlib.Vector.get_set_same _ _ _
  | I_alpha_beta_measured_ i => exact Mathlib.Vector.get_set_same _ _ _
  | _ => rfl

/-! ## Lemmas on the arm/disarm interface -/

theorem Motor.disarm_is_armed (s : Motor) : s.disarm.2.2.is_armed_ = false := by
  unfold Motor.disarm
  split
  · rfl
  · rename_i h
    simpa using h

theorem Motor.disarm_error (s : Motor) : s.disarm.2.2.error_ = s.error_ := by
  unfold Motor.disarm
  split <;> rfl

theorem Motor.set_error_is_armed (s : Motor) (error : ErrorMask) :
    (s.set_error error).is_armed_ = false := by
  simp only [Motor.set_error, benign]
  exact Motor.disarm_is_armed _

theorem Motor.set_error_error (s : Motor) (error : ErrorMask) :
    (s.set_error error).error_ = s.error_ ||| error := by
  simp only [Motor.set_error, benign]
  exact Motor.disarm_error _

theorem Motor.call_error (s : Motor) (c : Call) :
    ∃ e : ErrorMask, (s.call c).2.error_ = s.error_ ||| e := by
  cases c with
  | arm control_law ctx timer_running preconditions_met =>
    simp only [Motor.call, Motor.arm]
    split
    · exact ⟨0, by simp⟩
    · exact ⟨_, Motor.set_error_error _ _⟩
  | arm_foc foc_control_law foc_ctx timer_running preconditions_met =>
    simp only [Motor.call, Motor.arm_foc, Motor.arm]
    split
    · split
      · exact ⟨0, by simp⟩
      · exact ⟨_, Motor.set_error_error _ _⟩
    · exact ⟨_, Motor.set_error_error _ _⟩
  | disarm => exact ⟨0, by simp [Motor.call, Motor.disarm_error]⟩
  | set_error error => exact ⟨error, Motor.set_error_error _ _⟩

/-! ## Lemmas on the error mask -/

theorem or_two_pow_and_two_pow (m i j : Nat) (h : i ≠ j) :
    (m ||| 2 ^ i) &&& 2 ^ j = m &&& 2 ^ j := by
  apply Nat.eq_of_testBit_eq
  intro k
  simp only [Nat.testBit_and, Nat.testBit_or, Nat.testBit_two_pow]
  by_cases hj : j = k
  · have hi : ¬ i = k := fun e => h (e.trans hj.symm)
    simp [hi]
  · simp [hj]

theorem or_and_self (m a : Nat) : (m ||| a) &&& a = a := by
  apply Nat.eq_of_testBit_eq
  intro k
  simp only [Nat.testBit_and, Nat.testBit_or]
  cases m.testBit k <;> cases a.testBit k <;> rfl

theorem Error_t.toNat_zero_or_bit (e : Error_t) :
    e = Error_t.ERROR_NONE ∨ ∃ k, k < 29 ∧ e.toNat = 2 ^ k := by
  cases e <;> decide

theorem Error_t.toNat_injective (a b : Error_t) (h : a.toNat = b.toNat) : a = b := by
  cases a <;> cases b <;> first | rfl | exact absurd h (by decide)

/-! ## Lemmas on the protocol tree -/

theorem Motor.store_is_armed (a : Motor.Addr) (h : a ≠ Motor.Addr.is_armed_) (v : a.type)
    (s : Motor) : (s.store a v).is_armed_ = s.is_armed_ :=
  Motor.load_store_ne a Motor.Addr.is_armed_ h v s

theorem all_properties_hook (p : ProtocolProperty) (hp : p ∈ all_properties) :
    p.written_hook = none ∨ p.written_hook = some pre_calibrated_hook ∨
      p.written_hook = some current_control_bandwidth_hook ∨
      p.written_hook = some switching_frequency_hook := by
  revert p
  simp [all_properties, make_protocol_definitions, make_protocol_member_list,
    ProtocolMember.properties, make_protocol_object, make_protocol_property,
    make_protocol_ro_property, make_protocol_property_hooked]

theorem all_properties_unhooked :
    all_properties.all (fun p => p.written_hook.isNone ||
      decide (p.property ∈ [Motor.Addr.config_ .pre_calibrated,
        Motor.Addr.config_ .current_control_bandwidth, Motor.Addr.config_ .switching_frequency,
        Motor.Addr.config_ .control_frequency_divider])) = true := by
  decide

theorem all_properties_guard :
    all_properties.all (fun q => !q.writable ||
      (q.property != Motor.Addr.is_armed_ && q.property != Motor.Addr.control_law_ &&
        q.property != Motor.Addr.control_law_ctx_)) = true := by
  decide

theorem ProtocolProperty.write_plain (impl : Impl) (p : ProtocolProperty)
    (h : p.written_hook = none) (v : p.property.type) (s : Motor) :
    p.write impl v s = if p.writable = true then s.store p.property v else s := by
  unfold ProtocolProperty.write
  split
  · split
    · rfl
    · rename_i hook hh
      rw [h] at hh
      cases hh
  · rfl

theorem Motor.store_error (a : Motor.Addr) (h : a ≠ Motor.Addr.error_) (v : a.type)
    (s : Motor) : (s.store a v).error_ = s.error_ :=
  Motor.load_store_ne a Motor.Addr.error_ h v s

/-! ## The claims -/

/-- C1: for every motor state and every fault code, the motor is disarmed after
`set_error(code)` returns, whether it was armed before or not. -/
theorem set_error_disarms (s : Motor) (error : ErrorMask) :
    (s.set_error error).is_armed_ = false :=
  Motor.set_error_is_armed s error

/-- C3: `set_error` only ORs: the mask after `set_error(c)` is `m | c`, every
bit set before the call is set after it, no call of the arm/disarm interface
(`arm`, `arm_foc`, `disarm`, `set_error`) clears a bit, and neither does a write
to a hook-free property other than `error` itself, the one through which the
mask is acknowledged. -/
theorem set_error_or_only (s : Motor) (error : ErrorMask) :
    (s.set_error error).error_ = s.error_ ||| error ∧
      (∀ i, s.error_.testBit i = true → (s.set_error error).error_.testBit i = true) ∧
      (∀ (c : Call) (i : Nat), s.error_.testBit i = true →
        (s.call c).2.error_.testBit i = true) ∧
      (∀ (impl : Impl) (p : ProtocolProperty) (v : p.property.type),
        p.written_hook = none → p.property ≠ Motor.Addr.error_ →
          (p.write impl v s).error_ = s.error_) := by
  refine ⟨Motor.set_error_error s error, fun i hi => ?_, fun c i hi => ?_,
    fun impl p v hnone hne => ?_⟩
  · rw [Motor.set_error_error]
    simp [Nat.testBit_or, hi]
  · obtain ⟨e, he⟩ := Motor.call_error s c
    rw [he]
    simp [Nat.testBit_or, hi]
  · rw [ProtocolProperty.write_plain impl p hnone v s]
    split
    · exact Motor.store_error p.property hne v s
    · rfl

/-- Witness for C3: the bit of `ERROR_ADC_FAILED` survives raising
`ERROR_DRV_FAULT` and survives a `disarm`. -/
theorem set_error_or_only_witness :
    (({ Motor.init 0 0 0 with error_ := 4 }).set_error 8).error_ = 12 ∧
      (({ Motor.init 0 0 0 with error_ := 4 }).set_error 8).error_.testBit 2 = true ∧
      (({ Motor.init 0 0 0 with error_ := 4 }).call Call.disarm).2.error_.testBit 2 = true :=
  ⟨(set_error_or_only { Motor.init 0 0 0 with error_ := 4 } 8).1,
    (set_error_or_only { Motor.init 0 0 0 with error_ := 4 } 8).2.1 2 (by decide),
    (set_error_or_only { Motor.init 0 0 0 with error_ := 4 } 8).2.2.1 Call.disarm 2 (by decide)⟩

/-- C4: the fault kinds of `Error_t` are independently raisable: `ERROR_NONE` is
0, every other enumerator is a single bit, no two enumerators share a value,
and for every mask `m` and distinct enumerators `a`, `b`,
`(m | a) & b == m & b` and `(m | a) & a == a`. -/
theorem error_flags_independent :
    Error_t.ERROR_NONE.toNat = 0 ∧
      (∀ e : Error_t, e ≠ Error_t.ERROR_NONE → ∃ k, k < 29 ∧ e.toNat = 2 ^ k) ∧
      (∀ a b : Error_t, a.toNat = b.toNat → a = b) ∧
      (∀ (m : ErrorMask) (a b : Error_t), a ≠ b →
        (m ||| a.toNat) &&& b.toNat = m &&& b.toNat ∧
        (m ||| a.toNat) &&& a.toNat = a.toNat) := by
  refine ⟨rfl, fun e he => ?_, Error_t.toNat_injective, fun m a b hab => ⟨?_, or_and_self _ _⟩⟩
  · rcases Error_t.toNat_zero_or_bit e with h | h
    · exact absurd h he
    · exact h
  · rcases Error_t.toNat_zero_or_bit a with rfl | ⟨i, _, hi⟩
    · simp [Error_t.toNat]
    · rcases Error_t.toNat_zero_or_bit b with rfl | ⟨j, _, hj⟩
      · simp [Error_t.toNat]
      · have hij : i ≠ j := by
          intro e
          apply hab
          apply Error_t.toNat_injective
          rw [hi, hj, e]
        rw [hi, hj]
        exact or_two_pow_and_two_pow m i j hij

/-- Witness for C4: raising `ERROR_ADC_FAILED` on the
mask 1 leaves the bit of `ERROR_DRV_FAULT` clear and sets its own. -/
theorem error_flags_independent_witness :
    (1 ||| Error_t.ERROR_ADC_FAILED.toNat) &&& Error_t.ERROR_DRV_FAULT.toNat = 0 ∧
      (1 ||| Error_t.ERROR_ADC_FAILED.toNat) &&& Error_t.ERROR_ADC_FAILED.toNat = 4 :=
  error_flags_independent.2.2.2 1 Error_t.ERROR_ADC_FAILED Error_t.ERROR_DRV_FAULT (by decide)

/-- C6: a default-initialised `Motor` is in the documented startup state:
disarmed, error mask `ERROR_NONE`, control law and context null,
`is_calibrated_` equal to the default `config_.pre_calibrated`, which is
`false`, and both current-control integral accumulators zero. -/
theorem init_startup_state (p t d : Nat) :
    (Motor.init p t d).is_armed_ = false ∧
      (Motor.init p t d).error_ = Error_t.ERROR_NONE.toNat ∧
      (Motor.init p t d).error_ = 0 ∧
      (Motor.init p t d).control_law_ = none ∧
      (Motor.init p t d).control_law_ctx_ = none ∧
      (Motor.init p t d).is_calibrated_ = (Motor.init p t d).config_.pre_calibrated ∧
      (Motor.init p t d).config_.pre_calibrated = false ∧
      (Motor.init p t d).current_control_.v_current_control_integral_d = float.lit 0 0 ∧
      (Motor.init p t d).current_control_.v_current_control_integral_q = float.lit 0 0 :=
  ⟨rfl, rfl, rfl, rfl, rfl, rfl, rfl, rfl, rfl⟩

/-- C7: for every motor state and every boolean `b`, writing `b` to the
`config.pre_calibrated` property stores it, calls
`update_current_controller_gains` and then copies `config_.pre_calibrated` to
`is_calibrated_`: if the gain update leaves `config_.pre_calibrated` alone,
`is_calibrated_ == b` after the write, whatever it was before. -/
theorem write_pre_calibrated_mirrors (impl : Impl) (s : Motor) (b : Bool) :
    (find_property ["config", "pre_calibrated"]).map
        (fun p => (p.name, p.property, p.writable, p.written_hook.map (fun f => f impl s)))
      = some ("pre_calibrated", Motor.Addr.config_ .pre_calibrated, true,
          some (pre_calibrated_hook impl s)) ∧
      (make_protocol_property_hooked "pre_calibrated" (.config_ .pre_calibrated)
          pre_calibrated_hook).write impl b s =
        { impl.update_current_controller_gains (s.store (.config_ .pre_calibrated) b) with
          is_calibrated_ :=
            (impl.update_current_controller_gains
              (s.store (.config_ .pre_calibrated) b)).config_.pre_calibrated } ∧
      ((∀ m : Motor, (impl.update_current_controller_gains m).config_.pre_calibrated
          = m.config_.pre_calibrated) →
        ((make_protocol_property_hooked "pre_calibrated" (.config_ .pre_calibrated)
          pre_calibrated_hook).write impl b s).is_calibrated_ = b) := by
  refine ⟨by rfl, rfl, fun hgains => ?_⟩
  show (impl.update_current_controller_gains
    (s.store (.config_ .pre_calibrated) b)).config_.pre_calibrated = b
  rw [hgains]
  rfl

/-- Witness for C7: the gain update sets `p_gain`; writing `true` on the startup
state, which is uncalibrated, leaves it calibrated, and writing `false` on a
calibrated state leaves it uncalibrated. -/
theorem write_pre_calibrated_mirrors_witness :
    (Motor.init 0 0 0).is_calibrated_ = false ∧
      ((make_protocol_property_hooked "pre_calibrated" (.config_ .pre_calibrated)
          pre_calibrated_hook).write
        ⟨fun m => (true, m),
          fun m => { m with current_control_ := { m.current_control_ with p_gain := float.lit 1 0 } }⟩
        true (Motor.init 0 0 0)).is_calibrated_ = true ∧
      ((make_protocol_property_hooked "pre_calibrated" (.config_ .pre_calibrated)
          pre_calibrated_hook).write
        ⟨fun m => (true, m),
          fun m => { m with current_control_ := { m.current_control_ with p_gain := float.lit 1 0 } }⟩
        false { Motor.init 0 0 0 with is_calibrated_ := true }).is_calibrated_ = false :=
  ⟨rfl,
    (write_pre_calibrated_mirrors
      ⟨fun m => (true, m),
        fun m => { m with current_control_ := { m.current_control_ with p_gain := float.lit 1 0 } }⟩
      (Motor.init 0 0 0) true).2.2 (fun _ => rfl),
    (write_pre_calibrated_mirrors
      ⟨fun m => (true, m),
        fun m => { m with current_control_ := { m.current_control_ with p_gain := float.lit 1 0 } }⟩
      { Motor.init 0 0 0 with is_calibrated_ := true } false).2.2 (fun _ => rfl)⟩

/-- C8 at `config_.I_bus_soft_max`: the `"config"` object exposes every data
member of `Config_t` through a writable property except `I_bus_soft_max`, which
no property of the tree points at and no path reaches. -/
theorem I_bus_soft_max_not_exposed :
    Config_t.Member.I_bus_soft_max.exposed = false ∧
      all_properties.all
        (fun p => p.property != Motor.Addr.config_ .I_bus_soft_max) = true ∧
      (find_property ["config", "I_bus_soft_max"]).isNone = true ∧
      (find_property ["I_bus_soft_max"]).isNone = true ∧
      (find_property ["config", "I_bus_hard_max"]).map (fun p => (p.property, p.writable))
        = some (Motor.Addr.config_ .I_bus_hard_max, true) ∧
      ∀ m : Config_t.Member, m ≠ Config_t.Member.I_bus_soft_max → m.exposed = true := by
  refine ⟨by decide, by decide, by decide, by decide, by decide, ?_⟩
  intro m hm
  cases m <;> first | exact absurd rfl hm | decide

/-- C9: the properties with an after-write hook are exactly
`config.pre_calibrated`, `config.current_control_bandwidth`,
`config.switching_frequency` and `config.control_frequency_divider`; a write to
the bandwidth runs `update_current_controller_gains`, a write to the switching
frequency or the divider runs `update_switching_frequency`; a write to any
other property is the assignment to its own data member (nothing, if the
property is read-only), so every other data member keeps its value. -/
theorem write_hooks (impl : Impl) (s : Motor) :
    (all_properties.filter (fun p => p.written_hook.isSome)).map (fun p => p.property) =
        [Motor.Addr.config_ .pre_calibrated, Motor.Addr.config_ .current_control_bandwidth,
          Motor.Addr.config_ .switching_frequency,
          Motor.Addr.config_ .control_frequency_divider] ∧
      (config_properties.filter (fun p => p.written_hook.isSome)).map (fun p => p.name) =
        ["pre_calibrated", "current_control_bandwidth", "switching_frequency",
          "control_frequency_divider"] ∧
      (find_property ["config", "current_control_bandwidth"]).map
          (fun p => (p.property, p.writable, p.written_hook.map (fun f => f impl s))) =
        some (Motor.Addr.config_ .current_control_bandwidth, true,
          some (impl.update_current_controller_gains s)) ∧
      (find_property ["config", "switching_frequency"]).map
          (fun p => (p.property, p.writable, p.written_hook.map (fun f => f impl s))) =
        some (Motor.Addr.config_ .switching_frequency, true,
          some (impl.update_switching_frequency s).2) ∧
      (find_property ["config", "control_frequency_divider"]).map
          (fun p => (p.property, p.writable, p.written_hook.map (fun f => f impl s))) =
        some (Motor.Addr.config_ .control_frequency_divider, true,
          some (impl.update_switching_frequency s).2) ∧
      (∀ v : float,
        (make_protocol_property_hooked "current_control_bandwidth"
            (.config_ .current_control_bandwidth) current_control_bandwidth_hook).write impl v s =
          impl.update_current_controller_gains
            (s.store (.config_ .current_control_bandwidth) v)) ∧
      (∀ v : float,
        (make_protocol_property_hooked "switching_frequency"
            (.config_ .switching_frequency) switching_frequency_hook).write impl v s =
          (impl.update_switching_frequency (s.store (.config_ .switching_frequency) v)).2) ∧
      (∀ v : Nat,
        (make_protocol_property_hooked "control_frequency_divider"
            (.config_ .control_frequency_divider) switching_frequency_hook).write impl v s =
          (impl.update_switching_frequency
            (s.store (.config_ .control_frequency_divider) v)).2) ∧
      (∀ p ∈ all_properties,
        p.property ∉ [Motor.Addr.config_ .pre_calibrated,
          Motor.Addr.config_ .current_control_bandwidth, Motor.Addr.config_ .switching_frequency,
          Motor.Addr.config_ .control_frequency_divider] →
        ∀ v : p.property.type,
          p.write impl v s = (if p.writable = true then s.store p.property v else s) ∧
          ∀ a : Motor.Addr, a ≠ p.property → (p.write impl v s).load a = s.load a) := by
  refine ⟨by decide, by decide, by rfl, by rfl, by rfl, fun _ => rfl, fun _ => rfl,
    fun _ => rfl, ?_⟩
  intro p hp hnot v
  have hall := List.all_eq_true.mp all_properties_unhooked p hp
  have hnone : p.written_hook = none := by
    rcases Bool.or_eq_true _ _ |>.mp hall with h | h
    · exact Option.isNone_iff_eq_none.mp h
    · exact absurd (of_decide_eq_true h) hnot
  have hw := ProtocolProperty.write_plain impl p hnone v s
  refine ⟨hw, fun a ha => ?_⟩
  rw [hw]
  split
  · exact Motor.load_store_ne _ _ (Ne.symm ha) _ _
  · rfl

/-- Witness for C9: writing 3 to `config.pole_pairs` on the startup
state stores 3 there and leaves `is_calibrated_` as it was. -/
theorem write_hooks_witness :
    (make_protocol_property "pole_pairs" (.config_ .pole_pairs)).write
        ⟨fun m => (true, m), fun m => m⟩ (3 : Int) (Motor.init 0 0 0)
      = (Motor.init 0 0 0).store (.config_ .pole_pairs) (3 : Int) ∧
      ((make_protocol_property "pole_pairs" (.config_ .pole_pairs)).write
        ⟨fun m => (true, m), fun m => m⟩ (3 : Int) (Motor.init 0 0 0)).load .is_calibrated_
      = (Motor.init 0 0 0).load .is_calibrated_ :=
  ⟨((write_hooks ⟨fun m => (true, m), fun m => m⟩ (Motor.init 0 0 0)).2.2.2.2.2.2.2.2
      (make_protocol_property "pole_pairs" (.config_ .pole_pairs))
      (by simp [all_properties, make_protocol_definitions, make_protocol_member_list,
        ProtocolMember.properties, make_protocol_object]) (by decide)
      (3 : Int)).1,
    ((write_hooks ⟨fun m => (true, m), fun m => m⟩ (Motor.init 0 0 0)).2.2.2.2.2.2.2.2
      (make_protocol_property "pole_pairs" (.config_ .pole_pairs))
      (by simp [all_properties, make_protocol_definitions, make_protocol_member_list,
        ProtocolMember.properties, make_protocol_object]) (by decide)
      (3 : Int)).2 .is_calibrated_ (by decide)⟩

/-- C10: `is_armed_` is exposed only as the read-only property `is_armed`, no
writable property points at `is_armed_`, `control_law_` or `control_law_ctx_`,
and a write to a property of the tree leaves the armed flag as it was: always
when the property has no hook, and for the four hooked properties when
`update_current_controller_gains` and `update_switching_frequency` leave it. -/
theorem is_armed_write_guarded :
    (all_properties.filter (fun q => q.property = Motor.Addr.is_armed_)).map
        (fun q => (q.name, q.writable)) = [("is_armed", false)] ∧
      all_properties.all (fun q => !q.writable ||
        (q.property != Motor.Addr.is_armed_ && q.property != Motor.Addr.control_law_ &&
          q.property != Motor.Addr.control_law_ctx_)) = true ∧
      ∀ (impl : Impl) (p : ProtocolProperty), p ∈ all_properties →
        (p.written_hook = none ∨
          ∀ m : Motor, (impl.update_current_controller_gains m).is_armed_ = m.is_armed_ ∧
            (impl.update_switching_frequency m).2.is_armed_ = m.is_armed_) →
        ∀ (v : p.property.type) (s : Motor), (p.write impl v s).is_armed_ = s.is_armed_ := by
  refine ⟨by decide, all_properties_guard, ?_⟩
  intro impl p hp hplain v s
  have hg := List.all_eq_true.mp all_properties_guard p hp
  unfold ProtocolProperty.write
  split
  · rename_i hw
    have hne : p.property ≠ Motor.Addr.is_armed_ := by
      intro e
      simp [hw, e] at hg
    have hstore := Motor.store_is_armed p.property hne v s
    rcases all_properties_hook p hp with h | h | h | h
    · rw [h]
      exact hstore
    · rcases hplain with h0 | hi
      · rw [h] at h0
        cases h0
      · rw [h]
        show (impl.update_current_controller_gains (s.store p.property v)).is_armed_ = _
        rw [(hi _).1, hstore]
    · rcases hplain with h0 | hi
      · rw [h] at h0
        cases h0
      · rw [h]
        show (impl.update_current_controller_gains (s.store p.property v)).is_armed_ = _
        rw [(hi _).1, hstore]
    · rcases hplain with h0 | hi
      · rw [h] at h0
        cases h0
      · rw [h]
        show (impl.update_switching_frequency (s.store p.property v)).2.is_armed_ = _
        rw [(hi _).2, hstore]
  · rfl

/-- Witness for C10: writing an error mask to the `error` property of an armed
motor leaves it armed. -/
theorem is_armed_write_guarded_witness :
    ((make_protocol_property "error" .error_).write ⟨fun m => (true, m), fun m => m⟩ (0 : Nat)
      { Motor.init 0 0 0 with is_armed_ := true, control_law_ := some 7 }).is_armed_ = true :=
  is_armed_write_guarded.2.2 ⟨fun m => (true, m), fun m => m⟩
    (make_protocol_property "error" .error_)
    (by simp [all_properties, make_protocol_definitions, make_protocol_member_list,
        ProtocolMember.properties, make_protocol_object])
    (Or.inl rfl) (0 : Nat)
    { Motor.init 0 0 0 with is_armed_ := true, control_law_ := some 7 }

/-- C11: the timing log holds four checkpoint slots in the order cycle start,
current measurement, DC calibration, control done: the four checkpoints of
`TimingLog_t` have the distinct indices 0, 1, 2, 3, `TIMING_LOG_NUM_SLOTS` is 4,
`timing_log_` has `TIMING_LOG_NUM_SLOTS` elements in every motor state, every
checkpoint index is below that length, and the `timing_log` object exposes the
four slots in that order. -/
theorem timing_log_slots (s : Motor) :
    TimingLog_t.TIMING_LOG_UPDATE_START.toNat = 0 ∧
      TimingLog_t.TIMING_LOG_CURRENT_MEAS.toNat = 1 ∧
      TimingLog_t.TIMING_LOG_DC_CAL.toNat = 2 ∧
      TimingLog_t.TIMING_LOG_CTRL_DONE.toNat = 3 ∧
      TimingLog_t.TIMING_LOG_NUM_SLOTS.toNat = 4 ∧
      (∀ a b : TimingLog_t, a.toNat = b.toNat → a = b) ∧
      s.timing_log_.toList.length = TimingLog_t.TIMING_LOG_NUM_SLOTS.toNat ∧
      (∀ c : TimingLog_t, c ≠ TimingLog_t.TIMING_LOG_NUM_SLOTS →
        c.toNat < s.timing_log_.toList.length) ∧
      (object_properties "timing_log" make_protocol_definitions).map
          (fun p => (p.name, p.property, p.writable)) =
        [("TIMING_LOG_UPDATE_START", Motor.Addr.timing_log_ (timing_log_slot 0 (by decide)), false),
          ("TIMING_LOG_CURRENT_MEAS", Motor.Addr.timing_log_ (timing_log_slot 1 (by decide)), false),
          ("TIMING_LOG_DC_CAL", Motor.Addr.timing_log_ (timing_log_slot 2 (by decide)), false),
          ("TIMING_LOG_CTRL_DONE", Motor.Addr.timing_log_ (timing_log_slot 3 (by decide)), false)] := by
  have hlen : s.timing_log_.toList.length = TimingLog_t.TIMING_LOG_NUM_SLOTS.toNat :=
    s.timing_log_.toList_length
  refine ⟨rfl, rfl, rfl, rfl, rfl, ?_, hlen, ?_, by decide⟩
  · intro a b h
    cases a <;> cases b <;> first | rfl | exact absurd h (by decide)
  · intro c hc
    rw [hlen]
    cases c <;> first | exact absurd rfl hc | decide

/-- Witness for C11: in the startup state the slot of `TIMING_LOG_CTRL_DONE` is
inside `timing_log_`, which holds four zeros. -/
theorem timing_log_slots_witness :
    (Motor.init 0 0 0).timing_log_.toList = [0, 0, 0, 0] ∧
      TimingLog_t.TIMING_LOG_CTRL_DONE.toNat < (Motor.init 0 0 0).timing_log_.toList.length :=
  ⟨by decide,
    (timing_log_slots (Motor.init 0 0 0)).2.2.2.2.2.2.2.1 TimingLog_t.TIMING_LOG_CTRL_DONE
      (by decide)⟩

/-- C12, as stated, fails at the enumerator `NONE`: it is a value of
`UpdateMode_t`, it is none of `ON_BOTTOM`, `ON_TOP`, `ON_BOTH`, and it selects
neither half-cycle. -/
theorem update_mode_none :
    UpdateMode_t.NONE ≠ UpdateMode_t.ON_BOTTOM ∧ UpdateMode_t.NONE ≠ UpdateMode_t.ON_TOP ∧
      UpdateMode_t.NONE ≠ UpdateMode_t.ON_BOTH ∧
      UpdateMode_t.NONE.toNat &&& UpdateMode_t.ON_BOTTOM.toNat = 0 ∧
      UpdateMode_t.NONE.toNat &&& UpdateMode_t.ON_TOP.toNat = 0 ∧
      ({ Motor.init 0 0 0 with pwm_update_mode_ := UpdateMode_t.NONE }).pwm_update_mode_
        ≠ UpdateMode_t.ON_BOTTOM ∧
      ({ Motor.init 0 0 0 with pwm_update_mode_ := UpdateMode_t.NONE }).pwm_update_mode_
        ≠ UpdateMode_t.ON_TOP ∧
      ({ Motor.init 0 0 0 with pwm_update_mode_ := UpdateMode_t.NONE }).pwm_update_mode_
        ≠ UpdateMode_t.ON_BOTH := by
  decide

/-- C12, amended: every value of `UpdateMode_t` is `NONE`, `ON_BOTTOM`, `ON_TOP`
or `ON_BOTH`; a default-initialised motor has `pwm_update_mode_ == ON_TOP`,
`current_sample_mode_ == ON_BOTTOM` and `current_dc_calib_mode_ == ON_TOP`;
`ON_BOTTOM` and `ON_TOP` are the disjoint single bits 1 and 2 and `ON_BOTH` is
`ON_BOTTOM | ON_TOP`; a mode has `(mode & h) != 0` for a half-cycle `h` of
`ON_BOTTOM`, `ON_TOP` exactly when it is `h` or `ON_BOTH`, so `ON_BOTH` selects
both and `NONE` neither. -/
theorem update_mode_bits :
    (∀ m : UpdateMode_t, m = UpdateMode_t.NONE ∨ m = UpdateMode_t.ON_BOTTOM ∨
        m = UpdateMode_t.ON_TOP ∨ m = UpdateMode_t.ON_BOTH) ∧
      (∀ p t d : Nat, (Motor.init p t d).pwm_update_mode_ = UpdateMode_t.ON_TOP ∧
        (Motor.init p t d).current_sample_mode_ = UpdateMode_t.ON_BOTTOM ∧
        (Motor.init p t d).current_dc_calib_mode_ = UpdateMode_t.ON_TOP) ∧
      UpdateMode_t.ON_BOTTOM.toNat = 2 ^ 0 ∧ UpdateMode_t.ON_TOP.toNat = 2 ^ 1 ∧
      UpdateMode_t.ON_BOTTOM.toNat &&& UpdateMode_t.ON_TOP.toNat = 0 ∧
      UpdateMode_t.ON_BOTH.toNat = UpdateMode_t.ON_BOTTOM.toNat ||| UpdateMode_t.ON_TOP.toNat ∧
      (∀ m : UpdateMode_t, (m.toNat &&& UpdateMode_t.ON_BOTTOM.toNat ≠ 0 ↔
        (m = UpdateMode_t.ON_BOTTOM ∨ m = UpdateMode_t.ON_BOTH))) ∧
      (∀ m : UpdateMode_t, (m.toNat &&& UpdateMode_t.ON_TOP.toNat ≠ 0 ↔
        (m = UpdateMode_t.ON_TOP ∨ m = UpdateMode_t.ON_BOTH))) := by
  refine ⟨fun m => ?_, fun _ _ _ => ⟨rfl, rfl, rfl⟩, rfl, rfl, by decide, by decide,
    fun m => ?_, fun m => ?_⟩ <;> cases m <;> decide

/-- Witness for C12: `ON_BOTH` selects the bottom and the top half-cycle. -/
theorem update_mode_bits_witness :
    UpdateMode_t.ON_BOTH.toNat &&& UpdateMode_t.ON_BOTTOM.toNat ≠ 0 ∧
      UpdateMode_t.ON_BOTH.toNat &&& UpdateMode_t.ON_TOP.toNat ≠ 0 :=
  ⟨(update_mode_bits.2.2.2.2.2.2.1 UpdateMode_t.ON_BOTH).mpr (Or.inr rfl),
    (update_mode_bits.2.2.2.2.2.2.2 UpdateMode_t.ON_BOTH).mpr (Or.inr rfl)⟩

end ODrive
